import Mathlib

/-!
Verification of the Merlin listener subsystem (service layer, listener
abstraction, and the TCP listener variant) against its specification.

The Go sources are shallowly embedded:
* Go byte slices become `List Nat` (each entry a byte value), Go strings
  become Lean `String` (byte views use `strBytes`, adequate for the ASCII
  data appearing here),
* Go `map[string]string` becomes an association list `OptMap` with
  first-match lookup and in-place update (map keys are unique),
* fallible Go functions return `Except String`,
* functions that can hit a nil-interface or nil-pointer dereference return
  a `POutcome`, whose `panicked` constructor models a Go runtime panic,
* `uuid.NewV4()` is nondeterministic, so factories take the fresh
  identifier as an explicit `Nat` argument.
-/

/-- Byte strings: each element is one byte value (0..255). -/
abbrev Bytes := List Nat

/-- Byte view of a Go string.  The repository data handled by the claims is
ASCII, where code points and UTF-8 bytes coincide. -/
def strBytes (s : String) : Bytes := s.data.map Char.toNat

/- ----------------------------------------------------------------- -/
/- SHA-256 (crypto/sha256.Sum256), used by NewTCPListener for the PSK -/
/- ----------------------------------------------------------------- -/
/-- Truncate to a 32-bit word. -/
def w32 (x : Nat) : Nat := x % 4294967296

/-- Right rotation of a 32-bit word. -/
def rotr32 (n x : Nat) : Nat := w32 ((x >>> n) ||| (x <<< (32 - n)))

/-- SHA-256 big sigma 0. -/
def bsig0 (x : Nat) : Nat := (rotr32 2 x) ^^^ (rotr32 13 x) ^^^ (rotr32 22 x)

/-- SHA-256 big sigma 1. -/
def bsig1 (x : Nat) : Nat := (rotr32 6 x) ^^^ (rotr32 11 x) ^^^ (rotr32 25 x)

/-- SHA-256 small sigma 0. -/
def ssig0 (x : Nat) : Nat := (rotr32 7 x) ^^^ (rotr32 18 x) ^^^ (x >>> 3)

/-- SHA-256 small sigma 1. -/
def ssig1 (x : Nat) : Nat := (rotr32 17 x) ^^^ (rotr32 19 x) ^^^ (x >>> 10)

/-- SHA-256 round constants. -/
def shaK : List Nat :=
  [1116352408, 1899447441, 3049323471, 3921009573, 961987163, 1508970993,
   2453635748, 2870763221, 3624381080, 310598401, 607225278, 1426881987,
   1925078388, 2162078206, 2614888103, 3248222580, 3835390401, 4022224774,
   264347078, 604807628, 770255983, 1249150122, 1555081692, 1996064986,
   2554220882, 2821834349, 2952996808, 3210313671, 3336571891, 3584528711,
   113926993, 338241895, 666307205, 773529912, 1294757372, 1396182291,
   1695183700, 1986661051, 2177026350, 2456956037, 2730485921, 2820302411,
   3259730800, 3345764771, 3516065817, 3600352804, 4094571909, 275423344,
   430227734, 506948616, 659060556, 883997877, 958139571, 1322822218,
   1537002063, 1747873779, 1955562222, 2024104815, 2227730452, 2361852424,
   2428436474, 2756734187, 3204031479, 3329325298]

/-- SHA-256 initial hash state. -/
def shaH0 : List Nat :=
  [1779033703, 3144134277, 1013904242, 2773480762,
   1359893119, 2600822924, 528734635, 1541459225]

/-- Big-endian 8-byte encoding of a length in bits. -/
def be64 (n : Nat) : Bytes :=
  [(n >>> 56) % 256, (n >>> 48) % 256, (n >>> 40) % 256, (n >>> 32) % 256,
   (n >>> 24) % 256, (n >>> 16) % 256, (n >>> 8) % 256, n % 256]

/-- Big-endian 4-byte encoding of a 32-bit word. -/
def be32 (n : Nat) : Bytes := [(n >>> 24) % 256, (n >>> 16) % 256, (n >>> 8) % 256, n % 256]

/-- SHA-256 padding: append 0x80, zero bytes, then the bit length. -/
def padMsg (m : Bytes) : Bytes :=
  let L := m.length
  let z := (64 + 55 - (L % 64)) % 64
  m ++ 128 :: List.replicate z 0 ++ be64 (8 * L)

/-- Split a byte string into 64-byte blocks; structural recursion on a fuel
bound so that the definition reduces inside the kernel. -/
def chunk64Go : Nat → Bytes → List Bytes
  | 0, _ => []
  | _, [] => []
  | n + 1, l => l.take 64 :: chunk64Go n (l.drop 64)

/-- Split a byte string into 64-byte blocks. -/
def chunk64 (l : Bytes) : List Bytes := chunk64Go (l.length + 1) l

/-- Parse consecutive 4-byte groups as big-endian 32-bit words. -/
def toWords : Bytes → List Nat
  | a :: b :: c :: d :: rest => (a * 16777216 + b * 65536 + c * 256 + d) :: toWords rest
  | _ => []

/-- Extend the 16 message words by `n` scheduled words. -/
def shaExtend : List Nat → Nat → List Nat
  | w, 0 => w
  | w, n + 1 =>
    let nw := w32 (ssig1 (w.getD (w.length - 2) 0) + w.getD (w.length - 7) 0 +
                   ssig0 (w.getD (w.length - 15) 0) + w.getD (w.length - 16) 0)
    shaExtend (w ++ [nw]) n

/-- SHA-256 working state (the eight registers a..h). -/
structure Sha8 where
  a : Nat
  b : Nat
  c : Nat
  d : Nat
  e : Nat
  f : Nat
  g : Nat
  h : Nat

/-- One SHA-256 compression round. -/
def shaRound (s : Sha8) (k w : Nat) : Sha8 :=
  let ch := (s.e &&& s.f) ^^^ ((s.e ^^^ 4294967295) &&& s.g)
  let maj := (s.a &&& s.b) ^^^ (s.a &&& s.c) ^^^ (s.b &&& s.c)
  let t1 := w32 (s.h + bsig1 s.e + ch + k + w)
  let t2 := w32 (bsig0 s.a + maj)
  ⟨w32 (t1 + t2), s.a, s.b, s.c, w32 (s.d + t1), s.e, s.f, s.g⟩

/-- Compress one 64-byte block into the running hash state. -/
def compressBlock (hs : List Nat) (block : Bytes) : List Nat :=
  let ws := shaExtend (toWords block) 48
  let s0 : Sha8 := ⟨hs.getD 0 0, hs.getD 1 0, hs.getD 2 0, hs.getD 3 0,
                    hs.getD 4 0, hs.getD 5 0, hs.getD 6 0, hs.getD 7 0⟩
  let s := (shaK.zip ws).foldl (fun st p => shaRound st p.1 p.2) s0
  [w32 (hs.getD 0 0 + s.a), w32 (hs.getD 1 0 + s.b), w32 (hs.getD 2 0 + s.c),
   w32 (hs.getD 3 0 + s.d), w32 (hs.getD 4 0 + s.e), w32 (hs.getD 5 0 + s.f),
   w32 (hs.getD 6 0 + s.g), w32 (hs.getD 7 0 + s.h)]

/-- SHA-256 digest of a byte string (crypto/sha256.Sum256). -/
def sha256 (m : Bytes) : Bytes :=
  ((chunk64 (padMsg m)).foldl compressBlock shaH0).foldr (fun h acc => be32 h ++ acc) []

/- --------------------------------------------------------------- -/
/- Standard-library collaborators: net.ParseIP and strconv.Atoi     -/
/- --------------------------------------------------------------- -/
/-- ASCII lower-casing of one character (strings.ToLower on the ASCII
data the options carry). -/
def lowerChar (c : Char) : Char :=
  if 'A' ≤ c ∧ c ≤ 'Z' then Char.ofNat (c.toNat + 32) else c

/-- strings.ToLower, via the character list so the kernel can evaluate. -/
def lowerStr (s : String) : String := String.mk (s.data.map lowerChar)

/-- Split a character list at every separator, keeping empty fields. -/
def splitOnChar (sep : Char) : List Char → List (List Char)
  | [] => [[]]
  | c :: rest =>
    let r := splitOnChar sep rest
    if c = sep then [] :: r
    else
      match r with
      | [] => [[c]]
      | g :: gs => (c :: g) :: gs

/-- strings.Split for a one-character separator: like Go, the empty string
yields one empty field, and separators delimit possibly empty fields. -/
def splitStr (s : String) (sep : Char) : List String :=
  (splitOnChar sep s.data).map String.mk

/-- Decimal digit test. -/
def isDigitChar (c : Char) : Bool := '0' ≤ c ∧ c ≤ '9'

/-- Value of a decimal digit string (assumes all digits). -/
def digitsVal (l : List Char) : Nat := l.foldl (fun acc c => acc * 10 + (c.toNat - 48)) 0

/-- One dotted-quad octet: nonempty, all digits, no redundant leading zero,
and at most 255 (the rules net.ParseIP applies to each IPv4 octet). -/
def validOctet (s : String) : Bool :=
  s.data ≠ [] ∧ s.data.all isDigitChar ∧ (s.data.head? = some '0' → s.data.length = 1) ∧
    digitsVal s.data ≤ 255

/-- Model of net.ParseIP, restricted to IPv4 dotted-quad literals (the
textual form the repository's options actually carry; IPv6 literals are not
exercised by any claim).  Returns the four octet values on success. -/
def parseIP (s : String) : Option (List Nat) :=
  match splitStr s '.' with
  | [a, b, c, d] =>
    if validOctet a ∧ validOctet b ∧ validOctet c ∧ validOctet d then
      some [digitsVal a.data, digitsVal b.data, digitsVal c.data, digitsVal d.data]
    else none
  | _ => none

/-- Model of strconv.Atoi: optional sign followed by at least one digit.
The range check for machine-integer overflow is not modeled (ports are
small); the error text carries the offending value as Go's does. -/
def atoi (s : String) : Except String Int :=
  let bad : Except String Int :=
    .error ("strconv.Atoi: parsing \"" ++ s ++ "\": invalid syntax")
  match s.data with
  | [] => bad
  | c :: rest =>
    if c = '-' then
      if rest ≠ [] ∧ rest.all isDigitChar then .ok (-(digitsVal rest : Int)) else bad
    else if c = '+' then
      if rest ≠ [] ∧ rest.all isDigitChar then .ok (digitsVal rest : Int) else bad
    else if (c :: rest).all isDigitChar then .ok (digitsVal (c :: rest) : Int) else bad

/- --------------------------------------------------------------- -/
/- Go map[string]string as an association list                      -/
/- --------------------------------------------------------------- -/
/-- Association-list model of Go's map[string]string.  Keys are unique in
every map built below; insertion order stands in for the (unordered) map
so that the service's explicit sorting step is observable. -/
def OptMap := List (String × String)

/-- Lookup with presence information (Go's value, ok := m[k]). -/
def lookupOpt : OptMap → String → Option String
  | [], _ => none
  | (k, v) :: rest, key => if k = key then some v else lookupOpt rest key

/-- Go's m[k] indexing: the zero value "" when the key is absent. -/
def getOpt (m : OptMap) (key : String) : String := (lookupOpt m key).getD ""

/-- Go's m[k] = v: replace in place when present, append otherwise. -/
def setOpt (m : OptMap) (key v : String) : OptMap :=
  match m with
  | [] => [(key, v)]
  | (k, w) :: rest => if k = key then (k, v) :: rest else (k, w) :: setOpt rest key v

/-- The keys of a map in representation order. -/
def optKeys (m : OptMap) : List String := m.map Prod.fst

/- --------------------------------------------------------------- -/
/- Transformer stages and message values                            -/
/- --------------------------------------------------------------- -/
/-- Abstraction of messages.Base.  The transform chain treats the message
as an opaque structured value, so two fields suffice to expose identity. -/
structure BaseMsg where
  mid : Nat
  payload : Bytes
deriving DecidableEq, Repr

/-- Dynamic value passed through a transform stage, mirroring the Go
interface value: a byte slice, a string, a messages.Base, or anything
else (the `other` constructor covers Deconstruct's default case). -/
inductive TValue where
  | bytes (b : Bytes)
  | str (s : String)
  | base (m : BaseMsg)
  | other
deriving Repr

/-- A transform stage (pkg/transformer.Transformer): Construct encodes a
dynamic value to bytes, Deconstruct decodes bytes to a dynamic value. -/
structure Transformer where
  construct : TValue → Bytes → Except String Bytes
  deconstruct : Bytes → Bytes → Except String TValue

/-- Outcome of a Go computation that can also hit a runtime panic (a nil
interface or nil pointer dereference). -/
inductive POutcome (α : Type) where
  | ok (a : α)
  | err (e : String)
  | panicked
deriving Repr

/-- A chain entry is `none` exactly when the Go slice holds a nil
transformer interface (see the gob-delegate case of NewTCPListener). -/
abbrev Chain := List (Option Transformer)

/-- Error text Listener.Construct wraps around a failing stage. -/
def constructWrapMsg (e : String) : String :=
  "pkg/listeners.Construct(): there was an error calling the transformer construct function: " ++ e

/-- Error text Listener.Deconstruct returns when no stage yields a Base. -/
def noBaseMsg : String :=
  "pkg/listeners/tcp.Deconstruct(): unable to transform data into messages.Base structure"

/-- Error text for Deconstruct's default (unhandled dynamic type) case. -/
def unhandledTypeMsg : String :=
  "pkg/listeners.Deconstruct(): unhandled data type for Deconstruct()"

/-- Run one Construct stage on a dynamic value.  A `none` entry is a nil
transformer interface: calling through it panics. -/
def runStageC (s : Option Transformer) (v : TValue) (k : Bytes) : POutcome Bytes :=
  match s with
  | none => .panicked
  | some t =>
    match t.construct v k with
    | .error e => .err (constructWrapMsg e)
    | .ok b => .ok b

/-- Tail of the Listener.Construct loop (tcp.go:205-218): the remaining
stages, processed in slice-descending order, each consuming the byte
output of the previous stage. -/
def constructFrom : Chain → Bytes → Bytes → POutcome Bytes
  | [], d, _ => .ok d
  | s :: rest, d, k =>
    match runStageC s (.bytes d) k with
    | .ok d2 => constructFrom rest d2 k
    | .err e => .err e
    | .panicked => .panicked

/-- Listener.Construct's loop over the whole chain: iterate the slice from
its last element down to its first; the first iteration consumes the Base
message, later ones the accumulated bytes; an empty chain leaves the nil
data slice (tcp.go:205-222). -/
def constructRev : Chain → BaseMsg → Bytes → POutcome Bytes
  | [], _, _ => .ok []
  | s :: rest, msg, k =>
    match runStageC s (.base msg) k with
    | .ok d => constructFrom rest d k
    | .err e => .err e
    | .panicked => .panicked

/-- The whole Listener.Construct loop: the slice is processed from its
last element down to its first. -/
def constructChain (ts : Chain) (msg : BaseMsg) (k : Bytes) : POutcome Bytes :=
  constructRev ts.reverse msg k

/-- Listener.Deconstruct's loop (tcp.go:239-257): forward over the chain;
byte and string stage outputs feed the next stage, a Base output returns
immediately, anything else is the unhandled-type error, and falling off
the end is the no-Base error. -/
def deconstructChain : Chain → Bytes → Bytes → POutcome BaseMsg
  | [], _, _ => .err noBaseMsg
  | s :: rest, d, k =>
    match s with
    | none => .panicked
    | some t =>
      match t.deconstruct d k with
      | .error e => .err e
      | .ok (.bytes b) => deconstructChain rest b k
      | .ok (.str sv) => deconstructChain rest (strBytes sv) k
      | .ok (.base m) => .ok m
      | .ok .other => .err unhandledTypeMsg

/- --------------------------------------------------------------- -/
/- Authenticators and the TCP Listener aggregate                    -/
/- --------------------------------------------------------------- -/
/-- Kind of authenticator stored in the listener's auth field.  The claims
depend only on which authenticator is selected, so the two concrete
implementations (pkg/authenticators/none and the PAKE one, both outside
src/) are carried as kinds; `pake` is the one the string "opaque"
selects.  A Go nil interface in the field is `Option.none` around this. -/
inductive AuthKind where
  | pake
  | passThrough
deriving DecidableEq, Repr

/-- The TCP Listener aggregate (tcp.go:51-62).  The agentService field is
not modeled: no claim touches it. -/
structure Listener where
  id : Nat
  auth : Option AuthKind
  transformers : Chain
  description : String
  name : String
  options : OptMap
  psk : Bytes
  iface : String
  port : Int

/-- Effective key for a chain call: an empty caller key falls back to the
listener's pre-shared key (tcp.go:201-203 and 235-237). -/
def effKey (l : Listener) (key : Bytes) : Bytes := if key = [] then l.psk else key

/-- Listener.Construct (tcp.go:193-223). -/
def Listener.Construct (l : Listener) (msg : BaseMsg) (key : Bytes) : POutcome Bytes :=
  constructChain l.transformers msg (effKey l key)

/-- Listener.Deconstruct (tcp.go:228-259). -/
def Listener.Deconstruct (l : Listener) (data key : Bytes) : POutcome BaseMsg :=
  deconstructChain l.transformers data (effKey l key)

/-- Listener.PSK (tcp.go:287-289) returns string(l.psk); Go strings are
byte strings, so the byte view is returned unchanged. -/
def Listener.PSK (l : Listener) : Bytes := l.psk

/-- Modelled from the spec: the gob encoder stage (pkg/transformer/encoders/gob,
not in src/).  No claim depends on its wire format; it is carried as an
abstract stage value so the factory can place it in the chain. -/
def gobBaseStage : Transformer :=
  { construct := fun v _ =>
      match v with
      | .bytes b => .ok (1 :: b)
      | .str s => .ok (2 :: strBytes s)
      | .base m => .ok (3 :: m.mid :: m.payload)
      | .other => .ok [4]
    deconstruct := fun d _ =>
      match d with
      | 1 :: b => .ok (.bytes b)
      | 3 :: i :: p => .ok (.base ⟨i, p⟩)
      | _ => .ok .other }

/-- Modelled from the spec: the AES encrypter stage
(pkg/transformer/encrypters/aes, not in src/), carried abstractly like the
gob stage. -/
def aesStage : Transformer :=
  { construct := fun v k =>
      match v with
      | .bytes b => .ok (5 :: k.length :: b)
      | .str s => .ok (6 :: k.length :: strBytes s)
      | .base m => .ok (7 :: k.length :: m.mid :: m.payload)
      | .other => .ok [8]
    deconstruct := fun d _ =>
      match d with
      | 5 :: _ :: b => .ok (.bytes b)
      | 7 :: _ :: i :: p => .ok (.base ⟨i, p⟩)
      | _ => .ok .other }

/-- The transform-name switch of NewTCPListener (tcp.go:112-131): gob-base
and aes produce their stage, gob-delegate leaves the stage variable at its
nil zero value yet still appends it, and anything else is a hard error
that aborts the whole factory. -/
def parseTransforms : List String → Except String Chain
  | [] => .ok []
  | s :: rest =>
    if lowerStr s = "gob-base" then (parseTransforms rest).map (some gobBaseStage :: ·)
    else if lowerStr s = "gob-delegate" then (parseTransforms rest).map (none :: ·)
    else if lowerStr s = "aes" then (parseTransforms rest).map (some aesStage :: ·)
    else .error ("pkg/listeners/tcp.NewTCPListener(): unhandled transform type: " ++ s)

/-- Transforms option handling (tcp.go:110-132): only a present key is
split (on commas) and parsed. -/
def transformsFor (options : OptMap) : Except String Chain :=
  match lookupOpt options "Transforms" with
  | none => .ok []
  | some tv => parseTransforms (splitStr tv ',')

/-- Authenticator option handling (tcp.go:135-145): only a present key
selects an authenticator ("opaque" case-insensitively gives the PAKE one,
anything else the pass-through); an absent key leaves the field nil.
opaque.NewAuthenticator's failure path (outside src/) is not modeled: per
the spec it only aborts construction, and no claim exercises it. -/
def authFor (options : OptMap) : Option AuthKind :=
  match lookupOpt options "Authenticator" with
  | none => none
  | some v => if lowerStr v = "opaque" then some .pake else some .passThrough

/-- PSK option handling (tcp.go:81-84): only a present key is hashed. -/
def pskFor (options : OptMap) : Bytes :=
  match lookupOpt options "PSK" with
  | none => []
  | some v => sha256 (strBytes v)

/-- NewTCPListener (tcp.go:65-154).  `fid` stands for the uuid.NewV4()
value. -/
def NewTCPListener (options : OptMap) (fid : Nat) : Except String Listener :=
  if getOpt options "Name" = "" then .error "a listener name must be provided"
  else if getOpt options "Interface" = "" then .error "a network interface address must be provided"
  else
    match parseIP (getOpt options "Interface") with
    | none => .error (getOpt options "Interface" ++ " is not a valid network interface")
    | some _ =>
      if getOpt options "Port" = "" then .error "a network interface port must be provided"
      else
        match atoi (getOpt options "Port") with
        | .error e => .error ("there was an error converting the port number to an integer: " ++ e)
        | .ok port =>
          match transformsFor options with
          | .error e => .error e
          | .ok trs =>
            .ok { id := fid
                  auth := authFor options
                  transformers := trs
                  description := getOpt options "Description"
                  name := getOpt options "Name"
                  options := options
                  psk := pskFor options
                  iface := getOpt options "Interface"
                  port := port }

/-- DefaultOptions of the TCP listener package (tcp.go:157-168), with the
source's insertion order. -/
def tcpDefaultOptions : OptMap :=
  [("Name", "My TCP Listener"), ("Description", "Default TCP Listener"),
   ("Interface", "127.0.0.1"), ("Port", "7777"), ("PSK", "merlin"),
   ("Transforms", "aes,gob-base"), ("Protocol", "TCP"), ("Authenticator", "OPAQUE")]

/-- Listener.SetOption (tcp.go:304-314), functionally: the updated listener
on success. -/
def Listener.SetOption (l : Listener) (option value : String) : Except String Listener :=
  if lowerStr option = "name" then .ok { l with name := value }
  else if lowerStr option = "description" then .ok { l with description := value }
  else .error ("pkg/listeners/tcp.SetOptions(): unhandled option " ++ option)

/-- Listener.Status (tcp.go:318-320): TCP listeners have no embedded
server and always report a static "Created". -/
def Listener.Status (_ : Listener) : String := "Created"

/- --------------------------------------------------------------- -/
/- pkg/listeners: protocol-kind constants and FromString            -/
/- --------------------------------------------------------------- -/
namespace Listeners

/-- Listener-kind constant (pkg/listeners, src/unnamed/part_002:34). -/
def UNKNOWN : Nat := 0

/-- Listener-kind constant (part_002:35). -/
def HTTP : Nat := 1

/-- Listener-kind constant (part_002:36). -/
def TCP : Nat := 2

/-- Modelled from the spec: the SMB listener-kind constant.  The service
file references listeners.SMB but the sampled constants file does not
declare it; per the spec the four protocol kinds are distinct, so it is
modeled as a fresh value distinct from UNKNOWN, HTTP, and TCP. -/
def SMB : Nat := 3

/-- Modelled from the spec: the UDP listener-kind constant, missing from
the sampled constants file exactly like SMB. -/
def UDP : Nat := 4

/-- FromString (part_002:56-65): the HTTP family and "tcp" are the only
recognized kinds; everything else, "smb" and "udp" included, is UNKNOWN. -/
def FromString (kind : String) : Nat :=
  let k := lowerStr kind
  if k = "http" ∨ k = "https" ∨ k = "h2c" ∨ k = "http2" ∨ k = "http3" then HTTP
  else if k = "tcp" then TCP
  else UNKNOWN

end Listeners

/-- Listener.Protocol (tcp.go:282-284). -/
def Listener.Protocol (_ : Listener) : Nat := Listeners.TCP

/- --------------------------------------------------------------- -/
/- ListenerService (src/unnamed/part_000)                           -/
/- --------------------------------------------------------------- -/
/-- Modelled from the spec: the HTTP infrastructure-layer server
(pkg/servers/http, not in src/) retains its validated interface and
port. -/
structure HTTPServer where
  iface : String
  port : Int
deriving Repr

/-- Modelled from the spec: the HTTP listener variant (pkg/listeners/http,
not in src/): id, name, and the owned server reference its Server()
returns. -/
structure HTTPListener where
  id : Nat
  name : String
  server : Option HTTPServer
deriving Repr

/-- Modelled from the spec: the SMB listener variant (pkg/listeners/smb,
not in src/); Server() is nil for it, so no server field exists. -/
structure SMBListener where
  id : Nat
  name : String
deriving DecidableEq, Repr

/-- Modelled from the spec: the UDP listener variant (pkg/listeners/udp,
not in src/), shaped like the SMB one. -/
structure UDPListener where
  id : Nat
  name : String
deriving DecidableEq, Repr

/-- Modelled from the spec: httpServer.New validates the server-layer
options (a valid Interface IP literal and a numeric Port). -/
def httpServerNew (options : OptMap) : Except String HTTPServer :=
  match parseIP (getOpt options "Interface") with
  | none => .error (getOpt options "Interface" ++ " is not a valid interface")
  | some _ =>
    match atoi (getOpt options "Port") with
    | .error e => .error e
    | .ok p => .ok { iface := getOpt options "Interface", port := p }

/-- Modelled from the spec: http.NewHTTPListener requires a non-empty Name
(spec section 4.1 step 1) and owns the server reference it is given. -/
def NewHTTPListener (server : HTTPServer) (options : OptMap) (fid : Nat) :
    Except String HTTPListener :=
  if getOpt options "Name" = "" then .error "a listener name must be provided"
  else .ok { id := fid, name := getOpt options "Name", server := some server }

/-- Modelled from the spec: smb.NewSMBListener requires a non-empty Name
(spec section 4.1 step 1). -/
def NewSMBListener (options : OptMap) (fid : Nat) : Except String SMBListener :=
  if getOpt options "Name" = "" then .error "a listener name must be provided"
  else .ok { id := fid, name := getOpt options "Name" }

/-- Modelled from the spec: udp.NewUDPListener requires a non-empty Name
(spec section 4.1 step 1). -/
def NewUDPListener (options : OptMap) (fid : Nat) : Except String UDPListener :=
  if getOpt options "Name" = "" then .error "a listener name must be provided"
  else .ok { id := fid, name := getOpt options "Name" }

/-- The ListenerService aggregate (part_000:47-53): one in-memory
repository per protocol plus the HTTP server repository, each a list in
insertion order. -/
structure ListenerService where
  httpRepo : List HTTPListener
  httpServerRepo : List HTTPServer
  smbRepo : List SMBListener
  tcpRepo : List Listener
  udpRepo : List UDPListener

/-- NewListenerService (part_000:56-63): all repositories empty. -/
def NewListenerService : ListenerService := ⟨[], [], [], [], []⟩

/-- The interface value the service hands back: one of the four listener
variants (listeners.Listener in Go). -/
inductive SvcListener where
  | http (h : HTTPListener)
  | smb (s : SMBListener)
  | tcp (t : Listener)
  | udp (u : UDPListener)

/-- Protocol() of a service-level listener: each variant returns its
package's constant; the TCP case is tcp.go:282-284, the SMB and UDP cases
are modelled from the spec like their constants. -/
def SvcListener.protocol : SvcListener → Nat
  | .http _ => Listeners.HTTP
  | .smb _ => Listeners.SMB
  | .tcp t => t.Protocol
  | .udp _ => Listeners.UDP

/-- Server() of a service-level listener: the HTTP variant returns its
owned reference (spec section 4.1); the TCP variant returns nil
(tcp.go:294-296); SMB and UDP are nil per the spec. -/
def SvcListener.serverRef : SvcListener → Option HTTPServer
  | .http h => h.server
  | .smb _ => none
  | .tcp _ => none
  | .udp _ => none

/-- Repository lookup by id, first match (the per-protocol in-memory
repositories are outside src/; per the spec they support lookup by id). -/
def findByID {α : Type} (idOf : α → Nat) (repo : List α) (id : Nat) : Option α :=
  repo.find? (fun x => idOf x == id)

/-- ListenerService.Listener (part_000:235-253): search the HTTP, SMB,
TCP, UDP repositories in that order. -/
def svcListener (ls : ListenerService) (id : Nat) : Except String SvcListener :=
  match findByID HTTPListener.id ls.httpRepo id with
  | some h => .ok (.http h)
  | none =>
    match findByID SMBListener.id ls.smbRepo id with
    | some s => .ok (.smb s)
    | none =>
      match findByID Listener.id ls.tcpRepo id with
      | some t => .ok (.tcp t)
      | none =>
        match findByID UDPListener.id ls.udpRepo id with
        | some u => .ok (.udp u)
        | none => .error "pkg/services/listeners.GetListenerByID(): could not find listener"

/-- Modelled from the spec: the HTTP server's Stop() is the only
collaborator call the lifecycle paths make; its failure modes are outside
this core, so it is modeled as succeeding. -/
def httpServerStop (_ : HTTPServer) : Except String Unit := .ok ()

/-- ListenerService.Start (part_000:411-433): the HTTP case dereferences
the listener's server pointer and launches its accept loop concurrently
(the launch itself returns nil); SMB, TCP, and UDP return nil with no
work.  The Go switch's default case is unreachable: every variant's
Protocol() is one of the four constants. -/
def svcStart (ls : ListenerService) (id : Nat) : POutcome Unit :=
  match svcListener ls id with
  | .error e => .err ("pkg/services/listeners.Start(): " ++ e)
  | .ok L =>
    if L.protocol = Listeners.HTTP then
      match L.serverRef with
      | none => .panicked
      | some _ => .ok ()
    else .ok ()

/-- ListenerService.Stop (part_000:436-447): only the HTTP protocol does
work (dereference the server pointer, call its Stop); every other
protocol returns nil untouched. -/
def svcStop (ls : ListenerService) (id : Nat) : POutcome Unit :=
  match svcListener ls id with
  | .error e => .err ("pkg/services/listeners.Restart(): " ++ e)
  | .ok L =>
    if L.protocol = Listeners.HTTP then
      match L.serverRef with
      | none => .panicked
      | some srv =>
        match httpServerStop srv with
        | .error e => .err e
        | .ok _ => .ok ()
    else .ok ()

/-- ListenerService.Restart (part_000:375-388): unconditionally
dereferences the listener's server pointer (server := *listener.Server())
before stopping and relaunching it — with no protocol check at all. -/
def svcRestart (ls : ListenerService) (id : Nat) : POutcome Unit :=
  match svcListener ls id with
  | .error e => .err ("pkg/services/listeners.Restart(): " ++ e)
  | .ok L =>
    match L.serverRef with
    | none => .panicked
    | some srv =>
      match httpServerStop srv with
      | .error e => .err ("pkg/services/listeners.Restart(): " ++ e)
      | .ok _ => .ok ()

/-- The error prefix the service wraps around factory failures
(part_000, NewListener). -/
def svcWrap (e : String) : String := "pkg/services/listeners.NewListener(): " ++ e

/-- The error NewListener returns when the options map has no Protocol
key (part_000:93-95). -/
def protocolMissingMsg : String :=
  "pkg/services/listeners.NewListener(): the options map did not contain the \"Protocol\" key"

/-- Membership of a protocol string in the HTTP family recognized by
NewListener's switch (part_000:99). -/
def isHTTPFamily (p : String) : Bool :=
  p = "http" ∨ p = "https" ∨ p = "h2c" ∨ p = "http2" ∨ p = "http3"

/-- ListenerService.NewListener (part_000:91-165): dispatch on the
lower-cased Protocol value; the HTTP path registers the infrastructure
server before the listener factory runs, and a factory failure returns
immediately, leaving whatever was already added.  Repository Add calls
(outside src/) are modeled as appends that succeed.  `fid` stands for the
uuid the chosen factory draws. -/
def svcNewListener (ls : ListenerService) (options : OptMap) (fid : Nat) :
    ListenerService × Except String SvcListener :=
  match lookupOpt options "Protocol" with
  | none => (ls, .error protocolMissingMsg)
  | some _ =>
    let p := lowerStr (getOpt options "Protocol")
    if isHTTPFamily p then
      match httpServerNew options with
      | .error e => (ls, .error (svcWrap e))
      | .ok srv =>
        let ls1 := { ls with httpServerRepo := ls.httpServerRepo ++ [srv] }
        match NewHTTPListener srv options fid with
        | .error e => (ls1, .error (svcWrap e))
        | .ok hl => ({ ls1 with httpRepo := ls1.httpRepo ++ [hl] }, .ok (.http hl))
    else if p = "smb" then
      match NewSMBListener options fid with
      | .error e => (ls, .error (svcWrap e))
      | .ok sl => ({ ls with smbRepo := ls.smbRepo ++ [sl] }, .ok (.smb sl))
    else if p = "tcp" then
      match NewTCPListener options fid with
      | .error e => (ls, .error (svcWrap e))
      | .ok tl => ({ ls with tcpRepo := ls.tcpRepo ++ [tl] }, .ok (.tcp tl))
    else if p = "udp" then
      match NewUDPListener options fid with
      | .error e => (ls, .error (svcWrap e))
      | .ok ul => ({ ls with udpRepo := ls.udpRepo ++ [ul] }, .ok (.udp ul))
    else
      (ls, .error ("pkg/services/listeners.NewListener(): unhandled server type " ++
                   getOpt options "Protocol"))

/-- ListenerService.Listeners (part_000:256-278): aggregate the four
listener repositories in HTTP, SMB, TCP, UDP order.  Each stored listener
is reported as its (protocol constant, id) pair, the observable identity
of the returned pointer. -/
def svcListeners (ls : ListenerService) : List (Nat × Nat) :=
  ls.httpRepo.map (fun h => (Listeners.HTTP, h.id)) ++
  ls.smbRepo.map (fun s => (Listeners.SMB, s.id)) ++
  ls.tcpRepo.map (fun t => (Listeners.TCP, t.id)) ++
  ls.udpRepo.map (fun u => (Listeners.UDP, u.id))

/- --------------------------------------------------------------- -/
/- ListenerService.DefaultOptions                                   -/
/- --------------------------------------------------------------- -/
/-- Modelled from the spec: http.DefaultOptions (pkg/listeners/http, not
in src/) returns the listener-layer default bag; spec section 6 lists the
listener-layer keys. -/
def httpDefaultOptions : OptMap :=
  [("Name", "My HTTP Listener"), ("Description", "Default HTTP Listener"),
   ("PSK", "merlin"), ("Transforms", "jwe,gob-base"), ("Protocol", "HTTPS"),
   ("Authenticator", "OPAQUE")]

/-- Modelled from the spec: httpServer.GetDefaultOptions (pkg/servers/http,
not in src/) returns the server-layer default bag; spec section 6 puts
Interface and Port at the server layer for HTTP. -/
def httpServerGetDefaultOptions (_ : Nat) : OptMap :=
  [("Interface", "127.0.0.1"), ("Port", "443"), ("URLS", "/")]

/-- Modelled from the spec: servers.FromString (pkg/servers, not in src/)
maps an HTTP-family protocol string to a server-type constant.  Its value
is only forwarded to GetDefaultOptions, which ignores it here. -/
def serversFromString (p : String) : Nat :=
  if isHTTPFamily (lowerStr p) then 1 else 0

/-- Modelled from the spec: smb.DefaultOptions (pkg/listeners/smb, not in
src/), a listener-layer default bag. -/
def smbDefaultOptions : OptMap :=
  [("Name", "My SMB Listener"), ("Description", "Default SMB Listener"),
   ("PSK", "merlin"), ("Transforms", "gob-base"), ("Protocol", "SMB")]

/-- Modelled from the spec: udp.DefaultOptions (pkg/listeners/udp, not in
src/), a listener-layer default bag. -/
def udpDefaultOptions : OptMap :=
  [("Name", "My UDP Listener"), ("Description", "Default UDP Listener"),
   ("PSK", "merlin"), ("Transforms", "gob-base"), ("Protocol", "UDP")]

/-- Byte-wise strict comparison of byte strings, the order Go's
sort.Strings uses. -/
def bytesLt : Bytes → Bytes → Bool
  | [], [] => false
  | [], _ :: _ => true
  | _ :: _, [] => false
  | a :: as, b :: bs => if a < b then true else if b < a then false else bytesLt as bs

/-- Byte-wise strict order on strings. -/
def strLtB (s t : String) : Bool := bytesLt (strBytes s) (strBytes t)

/-- Byte-wise non-strict order on strings. -/
def strLeB (s t : String) : Bool := strLtB s t || decide (strBytes s = strBytes t)

/-- Overwrite-merge of the server bag into the listener bag
(part_000:209-211). -/
def mergeOpts (base overlay : OptMap) : OptMap :=
  overlay.foldl (fun acc p => setOpt acc p.1 p.2) base

/-- Insertion step of sort.Strings. -/
def insertStr (s : String) : List String → List String
  | [] => [s]
  | x :: xs => if strLeB s x then s :: x :: xs else x :: insertStr s xs

/-- sort.Strings as an insertion sort over the collected keys. -/
def sortStrs (l : List String) : List String := l.foldr insertStr []

/-- The key-collection, sort, and rebuild steps of DefaultOptions
(part_000:213-223): the result bag is laid out in ascending key order. -/
def sortedRebuild (m : OptMap) : OptMap :=
  (sortStrs (optKeys m)).map (fun k => (k, getOpt m k))

/-- ListenerService.DefaultOptions (part_000:187-225): switch on
listeners.FromString(protocol); non-HTTP protocols contribute no server
bag, so the merge leaves their listener bag unchanged. -/
def svcDefaultOptions (protocol : String) : Except String OptMap :=
  let sel := Listeners.FromString protocol
  if sel = Listeners.HTTP then
    .ok (sortedRebuild (mergeOpts httpDefaultOptions
      (httpServerGetDefaultOptions (serversFromString protocol))))
  else if sel = Listeners.SMB then .ok (sortedRebuild smbDefaultOptions)
  else if sel = Listeners.TCP then .ok (sortedRebuild tcpDefaultOptions)
  else if sel = Listeners.UDP then .ok (sortedRebuild udpDefaultOptions)
  else .error ("pkg/services/listeners.DefaultOptions(): unhandled server type: " ++ protocol)

/-- Computable check that a list of strings is strictly ascending. -/
def strictAscB : List String → Bool
  | [] => true
  | [_] => true
  | a :: b :: rest => strLtB a b && strictAscB (b :: rest)

/-- Strict ascending order of a bag's keys. -/
def strictlySortedKeys (m : OptMap) : Prop := strictAscB (optKeys m) = true

/- --------------------------------------------------------------- -/
/- Concrete fixtures used by the claim theorems                     -/
/- --------------------------------------------------------------- -/
/-- Options selecting only the gob-delegate transform. -/
def gobDelegateOpts : OptMap :=
  [("Name", "T1"), ("Interface", "127.0.0.1"), ("Port", "7777"),
   ("Transforms", "gob-delegate")]

/-- Chain check for exactly one nil stage. -/
def isSingleNilStage : Chain → Bool
  | [none] => true
  | _ => false

/-- A stored TCP listener used as the concrete lifecycle fixture. -/
def tcpFixture : Listener :=
  { id := 5, auth := none, transformers := [], description := "", name := "T5",
    options := [], psk := [], iface := "127.0.0.1", port := 7777 }

/-- A service holding exactly the TCP fixture. -/
def svcFixture : ListenerService :=
  { httpRepo := [], httpServerRepo := [], smbRepo := [], tcpRepo := [tcpFixture], udpRepo := [] }

/- --------------------------------------------------------------- -/
/- Claim C1: the chain round-trip law                               -/
/- --------------------------------------------------------------- -/
/-- A stage whose Construct and Deconstruct are mutual inverses on the
values the listener chain feeds it: encoding any byte input or any Base
message succeeds and decoding the encoding returns the input. -/
def MutualInverse (t : Transformer) : Prop :=
  (∀ b k, ∃ w, t.construct (.bytes b) k = .ok w ∧ t.deconstruct w k = .ok (.bytes b)) ∧
  (∀ m k, ∃ w, t.construct (.base m) k = .ok w ∧ t.deconstruct w k = .ok (.base m))

/-- A chain entry that is an actual (non-nil) stage with mutually inverse
directions. -/
def GoodStage (s : Option Transformer) : Prop := ∃ t, s = some t ∧ MutualInverse t

/-- A listener with the default-shaped chain aes, gob-base. -/
def chainFixture : Listener :=
  { id := 2, auth := none, transformers := [some aesStage, some gobBaseStage],
    description := "", name := "T2", options := [], psk := [],
    iface := "127.0.0.1", port := 7777 }

/- --------------------------------------------------------------- -/
/- Claim C2: chain ordering (refinement against the spec's wording) -/
/- --------------------------------------------------------------- -/
/-- Construct order as the spec words it: the last-configured transform is
applied first, directly to the structured message; each preceding
transform consumes the previous stage's output; the first-configured
transform's output is the wire payload.  (The spec does not address the
empty chain; the nil byte slice mirrors the code there.) -/
def specConstruct : Chain → BaseMsg → Bytes → POutcome Bytes
  | [], _, _ => .ok []
  | [s], msg, k => runStageC s (.base msg) k
  | s :: rest, msg, k =>
    match specConstruct rest msg k with
    | .ok d => runStageC s (.bytes d) k
    | .err e => .err e
    | .panicked => .panicked

/-- Deconstruct order as the spec words it: the first-configured transform
consumes the wire payload, each subsequent transform the previous output;
the first stage output that is a structured message is returned, and if no
stage ever yields one, decoding fails. -/
def specDeconstruct : Chain → Bytes → Bytes → POutcome BaseMsg
  | [], _, _ => .err noBaseMsg
  | s :: rest, d, k =>
    match s with
    | none => .panicked
    | some t =>
      match t.deconstruct d k with
      | .error e => .err e
      | .ok (.base m) => .ok m
      | .ok (.bytes b) => specDeconstruct rest b k
      | .ok (.str sv) => specDeconstruct rest (strBytes sv) k
      | .ok .other => .err unhandledTypeMsg

/-- A stage that always deconstructs to raw bytes. -/
def echoStage : Transformer :=
  { construct := fun _ _ => .ok [], deconstruct := fun d _ => .ok (.bytes d) }

/-- A listener holding only the byte-echo stage. -/
def echoFixture : Listener :=
  { id := 3, auth := none, transformers := [some echoStage], description := "",
    name := "T3", options := [], psk := [], iface := "127.0.0.1", port := 7777 }

/-- Options with no Authenticator key. -/
def noAuthOpts : OptMap := [("Name", "T1"), ("Interface", "127.0.0.1"), ("Port", "7777")]

/-- Options selecting the OPAQUE authenticator. -/
def opaqueOpts : OptMap :=
  [("Name", "T1"), ("Interface", "127.0.0.1"), ("Port", "7777"), ("Authenticator", "OPAQUE")]

/-- The listener NewTCPListener builds from opaqueOpts. -/
def opaqueFixture : Listener :=
  { id := 4, auth := authFor opaqueOpts, transformers := [], description := "",
    name := "T1", options := opaqueOpts, psk := pskFor opaqueOpts,
    iface := "127.0.0.1", port := 7777 }

/-- Options with a present but empty PSK value. -/
def emptyPskOpts : OptMap :=
  [("Name", "T1"), ("Interface", "127.0.0.1"), ("Port", "7777"), ("PSK", "")]

/-- Options with PSK "merlin". -/
def pskOpts : OptMap :=
  [("Name", "T1"), ("Interface", "127.0.0.1"), ("Port", "7777"), ("PSK", "merlin")]

/-- The listener NewTCPListener builds from pskOpts. -/
def pskFixture : Listener :=
  { id := 6, auth := authFor pskOpts, transformers := [], description := "",
    name := "T1", options := pskOpts, psk := pskFor pskOpts,
    iface := "127.0.0.1", port := 7777 }

/- --------------------------------------------------------------- -/
/- Claims C6 and C5: construction validation and service state      -/
/- --------------------------------------------------------------- -/
/-- A transform name the factory's switch does not recognize. -/
def badTransform (s : String) : Prop :=
  lowerStr s ≠ "gob-base" ∧ lowerStr s ≠ "gob-delegate" ∧ lowerStr s ≠ "aes"

instance (s : String) : Decidable (badTransform s) := by
  unfold badTransform
  infer_instance

/-- HTTP options whose server layer validates but whose listener factory
rejects (Name is absent). -/
def headlessHttpOpts : OptMap :=
  [("Protocol", "http"), ("Interface", "127.0.0.1"), ("Port", "443")]

/-- FIPS 180-4 test vector: digest of the empty message. -/
theorem sha256_empty_vector :
    sha256 [] =
      [227, 176, 196, 66, 152, 252, 28, 20, 154, 251, 244,
   200, 153, 111, 185, 36, 39, 174, 65, 228, 100, 155,
   147, 76, 164, 149, 153, 27, 120, 82, 184, 85] := by decide

/-- FIPS 180-4 test vector: digest of "abc". -/
theorem sha256_abc_vector :
    sha256 (strBytes "abc") =
      [186, 120, 22, 191, 143, 1, 207, 234, 65, 65, 64,
   222, 93, 174, 34, 35, 176, 3, 97, 163, 150, 23,
   122, 156, 180, 16, 255, 97, 242, 0, 21, 173] := by decide

/-- Claim C10: with Transforms "gob-delegate" the TCP factory succeeds yet
appends a nil transform stage, and both chain directions on the resulting
listener hit the nil stage and panic instead of returning an error. -/
theorem claim_c10_nil_stage :
    (NewTCPListener gobDelegateOpts 9).map (fun l => isSingleNilStage l.transformers) = .ok true ∧
    (NewTCPListener gobDelegateOpts 9).map (fun l => l.Construct ⟨1, [2]⟩ [5]) = .ok .panicked ∧
    (NewTCPListener gobDelegateOpts 9).map (fun l => l.Deconstruct [3] [5]) = .ok .panicked :=
  ⟨rfl, rfl, rfl⟩

/-- Claim C8: the supporting evaluation.  DefaultOptions fails for the SMB
and UDP protocols because the source's FromString maps "smb" and "udp" to
UNKNOWN, while for the recognized HTTP and TCP protocols it succeeds and
the returned bag's keys are in strictly ascending lexical order. -/
theorem claim_c8_default_options :
    svcDefaultOptions "smb" =
      .error "pkg/services/listeners.DefaultOptions(): unhandled server type: smb" ∧
    svcDefaultOptions "UDP" =
      .error "pkg/services/listeners.DefaultOptions(): unhandled server type: UDP" ∧
    (∃ m, svcDefaultOptions "http" = .ok m ∧ strictlySortedKeys m) ∧
    (∃ m, svcDefaultOptions "tcp" = .ok m ∧ strictlySortedKeys m) := by
  refine ⟨rfl, rfl, ⟨_, rfl, ?_⟩, ⟨_, rfl, ?_⟩⟩ <;> unfold strictlySortedKeys <;> rfl

/-- Claim C3: for a stored listener of a server-less protocol (SMB, TCP,
UDP), Start and Stop indeed do no work and return nil, but Restart
dereferences the nil Server() pointer and panics instead of returning
success. -/
theorem claim_c3_lifecycle (ls : ListenerService) (id : Nat) (L : SvcListener)
    (hfind : svcListener ls id = .ok L)
    (hproto : L.protocol = Listeners.SMB ∨ L.protocol = Listeners.TCP ∨
              L.protocol = Listeners.UDP) :
    svcStart ls id = .ok () ∧ svcStop ls id = .ok () ∧ svcRestart ls id = .panicked := by
  have hne : L.protocol ≠ Listeners.HTTP := by
    rcases hproto with h | h | h <;> rw [h] <;> decide
  have hsrv : L.serverRef = none := by
    cases L with
    | http h => exact absurd rfl hne
    | smb s => rfl
    | tcp t => rfl
    | udp u => rfl
  refine ⟨?_, ?_, ?_⟩
  · simp only [svcStart, hfind, hne, if_false]
  · simp only [svcStop, hfind, hne, if_false]
  · simp only [svcRestart, hfind, hsrv]

/-- Claim C3's concrete evaluation: the fixture service's TCP listener. -/
theorem claim_c3_lifecycle_witness :
    svcStart svcFixture 5 = .ok () ∧ svcStop svcFixture 5 = .ok () ∧
    svcRestart svcFixture 5 = .panicked :=
  claim_c3_lifecycle svcFixture 5 (.tcp tcpFixture) rfl (Or.inr (Or.inl rfl))

/-- Processing good stages over byte input always succeeds. -/
theorem constructFrom_ok (ts : Chain) (hgood : ∀ s ∈ ts, GoodStage s) (d k : Bytes) :
    ∃ w, constructFrom ts d k = .ok w := by
  induction ts generalizing d with
  | nil => exact ⟨d, rfl⟩
  | cons s rest ih =>
    obtain ⟨t, hst, hinv⟩ := hgood s (List.mem_cons_self s rest)
    obtain ⟨w1, hc, _⟩ := hinv.1 d k
    obtain ⟨w, hw⟩ := ih (fun x hx => hgood x (List.mem_cons_of_mem _ hx)) w1
    subst hst
    exact ⟨w, by simp [constructFrom, runStageC, hc, hw]⟩

/-- Unwinding lemma: the bytes produced by running good stages forward
are consumed back by the deconstruction pass over the reversed stages,
leaving the remaining deconstruction where it started. -/
theorem deconstruct_unwind (ts : Chain) (hgood : ∀ s ∈ ts, GoodStage s) :
    ∀ d k tail w, constructFrom ts d k = .ok w →
      deconstructChain (ts.reverse ++ tail) w k = deconstructChain tail d k := by
  induction ts with
  | nil =>
    intro d k tail w hcf
    simp only [constructFrom] at hcf
    cases hcf
    simp
  | cons s rest ih =>
    intro d k tail w hcf
    obtain ⟨t, hst, hinv⟩ := hgood s (List.mem_cons_self s rest)
    obtain ⟨w1, hc, hd⟩ := hinv.1 d k
    subst hst
    simp only [constructFrom, runStageC, hc] at hcf
    have hrest : ∀ x ∈ rest, GoodStage x :=
      fun x hx => hgood x (List.mem_cons_of_mem _ hx)
    have step := ih hrest w1 k (some t :: tail) w hcf
    rw [List.reverse_cons, List.append_assoc, List.singleton_append, step]
    simp [deconstructChain, hd]

/-- Claim C1 (amended to nonempty chains): for a TCP listener whose
transformer chain is nonempty and consists of non-nil stages whose own
Construct and Deconstruct are mutual inverses, Construct succeeds on every
message and key and Deconstruct of its output returns the message without
error.  (The empty chain fails the law: see the counterexample.) -/
theorem claim_c1_roundtrip (l : Listener) (msg : BaseMsg) (key : Bytes)
    (hne : l.transformers ≠ []) (hgood : ∀ s ∈ l.transformers, GoodStage s) :
    ∃ w, l.Construct msg key = .ok w ∧ l.Deconstruct w key = .ok msg := by
  unfold Listener.Construct Listener.Deconstruct constructChain
  cases h : l.transformers.reverse with
  | nil => exact absurd (List.reverse_eq_nil_iff.mp h) hne
  | cons s rest =>
    have hsg : GoodStage s := hgood s (by
      rw [← List.mem_reverse, h]; exact List.mem_cons_self s rest)
    obtain ⟨t, hst, hinv⟩ := hsg
    obtain ⟨w1, hc1, hd1⟩ := hinv.2 msg (effKey l key)
    have hrestgood : ∀ x ∈ rest, GoodStage x := by
      intro x hx
      exact hgood x (by rw [← List.mem_reverse, h]; exact List.mem_cons_of_mem _ hx)
    obtain ⟨w, hw⟩ := constructFrom_ok rest hrestgood w1 (effKey l key)
    have hts : l.transformers = rest.reverse ++ [s] := by
      have h2 := congrArg List.reverse h
      simpa [List.reverse_reverse] using h2
    subst hst
    refine ⟨w, ?_, ?_⟩
    · simp [constructRev, runStageC, hc1, hw]
    · rw [hts, deconstruct_unwind rest hrestgood w1 (effKey l key) [some t] w hw]
      simp [deconstructChain, hd1]

/-- The gob-base stand-in stage is mutually inverse. -/
theorem gobBase_inverse : MutualInverse gobBaseStage :=
  ⟨fun b _ => ⟨1 :: b, rfl, rfl⟩, fun m _ => ⟨3 :: m.mid :: m.payload, rfl, rfl⟩⟩

/-- The aes stand-in stage is mutually inverse. -/
theorem aes_inverse : MutualInverse aesStage :=
  ⟨fun b k => ⟨5 :: k.length :: b, rfl, rfl⟩,
   fun m k => ⟨7 :: k.length :: m.mid :: m.payload, rfl, rfl⟩⟩

/-- Claim C1's witness: the round-trip law at a concrete two-stage
listener, message, and key. -/
theorem claim_c1_roundtrip_witness :
    ∃ w, chainFixture.Construct ⟨1, [2]⟩ [5] = .ok w ∧
         chainFixture.Deconstruct w [5] = .ok ⟨1, [2]⟩ :=
  claim_c1_roundtrip chainFixture ⟨1, [2]⟩ [5] (List.cons_ne_nil _ _)
    (by
      intro s hs
      rcases List.mem_cons.mp hs with h | hs2
      · exact ⟨aesStage, h, aes_inverse⟩
      · rcases List.mem_cons.mp hs2 with h | h3
        · exact ⟨gobBaseStage, h, gobBase_inverse⟩
        · cases h3)

/-- Claim C1's counterexample: a listener with an empty transformer chain
(which vacuously consists of mutually inverse stages) breaks the law —
Construct returns the nil byte slice without error, yet Deconstruct of
that output fails with the no-Base error instead of returning the
message. -/
theorem claim_c1_counterexample :
    tcpFixture.transformers = [] ∧
    tcpFixture.Construct ⟨1, [2]⟩ [5] = .ok [] ∧
    tcpFixture.Deconstruct [] [5] = .err noBaseMsg ∧
    tcpFixture.Deconstruct [] [5] ≠ .ok ⟨1, [2]⟩ :=
  ⟨rfl, rfl, rfl, fun h => nomatch h⟩

/-- Appending one stage to the byte-consuming pass runs it last. -/
theorem constructFrom_append (ts : Chain) (x : Option Transformer) :
    ∀ d k, constructFrom (ts ++ [x]) d k =
      match constructFrom ts d k with
      | .ok d2 => runStageC x (.bytes d2) k
      | .err e => .err e
      | .panicked => .panicked := by
  induction ts with
  | nil =>
    intro d k
    cases hr : runStageC x (.bytes d) k <;> simp [constructFrom, hr]
  | cons s rest ih =>
    intro d k
    cases hr : runStageC s (.bytes d) k <;> simp [constructFrom, hr, ih]

/-- Appending one stage to a nonempty reversed pass runs it last. -/
theorem constructRev_append (y : Option Transformer) (ys : Chain) (x : Option Transformer)
    (msg : BaseMsg) (k : Bytes) :
    constructRev ((y :: ys) ++ [x]) msg k =
      match constructRev (y :: ys) msg k with
      | .ok d => runStageC x (.bytes d) k
      | .err e => .err e
      | .panicked => .panicked := by
  simp only [List.cons_append, constructRev]
  cases hr : runStageC y (.base msg) k <;> simp [constructFrom_append]

/-- The spec-order Construct equals the code's reversed-slice loop. -/
theorem specConstruct_eq_rev (ts : Chain) :
    ∀ msg k, specConstruct ts msg k = constructRev ts.reverse msg k := by
  induction ts with
  | nil => intro msg k; rfl
  | cons s rest ih =>
    intro msg k
    cases rest with
    | nil =>
      simp only [specConstruct, List.reverse_cons, List.reverse_nil, List.nil_append,
                 constructRev]
      cases hr : runStageC s (.base msg) k <;> simp [constructFrom, hr]
    | cons r rs =>
      have hrev : ∃ y ys, (r :: rs).reverse = y :: ys := by
        cases hh : (r :: rs).reverse with
        | nil => exact absurd (List.reverse_eq_nil_iff.mp hh) (List.cons_ne_nil r rs)
        | cons y ys => exact ⟨y, ys, rfl⟩
      obtain ⟨y, ys, hy⟩ := hrev
      calc specConstruct (s :: r :: rs) msg k
          = (match specConstruct (r :: rs) msg k with
             | .ok d => runStageC s (.bytes d) k
             | .err e => .err e
             | .panicked => .panicked) := rfl
        _ = (match constructRev ((r :: rs).reverse) msg k with
             | .ok d => runStageC s (.bytes d) k
             | .err e => .err e
             | .panicked => .panicked) := by rw [ih]
        _ = constructRev ((r :: rs).reverse ++ [s]) msg k := by
             rw [hy, constructRev_append]
        _ = constructRev ((s :: r :: rs).reverse) msg k := by
             simp [List.reverse_cons]

/-- The code's Deconstruct loop is the spec-order pass. -/
theorem deconstructChain_eq_spec (ts : Chain) :
    ∀ d k, deconstructChain ts d k = specDeconstruct ts d k := by
  induction ts with
  | nil => intro d k; rfl
  | cons s rest ih =>
    intro d k
    cases s with
    | none => rfl
    | some t =>
      simp only [deconstructChain, specDeconstruct]
      cases hr : t.deconstruct d k with
      | error e => rfl
      | ok v => cases v <;> simp [ih]

/-- If every stage's Deconstruct only ever yields raw bytes, the pass
falls off the end of the chain with the no-Base error. -/
theorem deconstructChain_all_bytes (ts : Chain) :
    ∀ d k, (∀ s ∈ ts, ∃ t, s = some t ∧ ∀ d2, ∃ b, t.deconstruct d2 k = .ok (.bytes b)) →
      deconstructChain ts d k = .err noBaseMsg := by
  induction ts with
  | nil => intro d k _; rfl
  | cons s rest ih =>
    intro d k hall
    obtain ⟨t, hst, hb⟩ := hall s (List.mem_cons_self s rest)
    obtain ⟨b, hb2⟩ := hb d
    subst hst
    simp only [deconstructChain, hb2]
    exact ih b k (fun x hx => hall x (List.mem_cons_of_mem _ hx))

/-- Claim C2: Listener.Construct runs the chain in reverse configured
order exactly as the spec describes, Listener.Deconstruct runs it in
forward configured order returning the first structured message, and when
no stage ever yields a structured message the call fails with the no-Base
error. -/
theorem claim_c2_chain_order (l : Listener) (msg : BaseMsg) (data key : Bytes) :
    l.Construct msg key = specConstruct l.transformers msg (effKey l key) ∧
    l.Deconstruct data key = specDeconstruct l.transformers data (effKey l key) ∧
    ((∀ s ∈ l.transformers, ∃ t, s = some t ∧
        ∀ d2, ∃ b, t.deconstruct d2 (effKey l key) = .ok (.bytes b)) →
      l.Deconstruct data key = .err noBaseMsg) := by
  refine ⟨?_, ?_, ?_⟩
  · unfold Listener.Construct constructChain
    rw [specConstruct_eq_rev]
  · unfold Listener.Deconstruct
    rw [deconstructChain_eq_spec]
  · intro hall
    unfold Listener.Deconstruct
    exact deconstructChain_all_bytes l.transformers data (effKey l key) hall

/-- Claim C2's witness: the no-structured-message failure at a concrete
listener whose single stage only ever yields bytes. -/
theorem claim_c2_chain_order_witness :
    echoFixture.Deconstruct [9] [5] = .err noBaseMsg :=
  (claim_c2_chain_order echoFixture ⟨1, [2]⟩ [9] [5]).2.2 (by
    intro s hs
    have h : s = some echoStage := List.mem_singleton.mp hs
    exact ⟨echoStage, h, fun d2 => ⟨d2, rfl⟩⟩)

/- --------------------------------------------------------------- -/
/- Claims C4, C7, C9: factory field derivation and SetOption        -/
/- --------------------------------------------------------------- -/
/-- Inversion of a successful NewTCPListener run: every field of the
produced listener is the one the factory derives from the options. -/
theorem newTCP_ok_fields (options : OptMap) (fid : Nat) (l : Listener)
    (h : NewTCPListener options fid = .ok l) :
    l.id = fid ∧ l.auth = authFor options ∧ l.psk = pskFor options ∧
    l.name = getOpt options "Name" ∧ l.description = getOpt options "Description" ∧
    l.iface = getOpt options "Interface" ∧ l.options = options ∧
    transformsFor options = .ok l.transformers ∧
    atoi (getOpt options "Port") = .ok l.port := by
  unfold NewTCPListener at h
  split at h
  · cases h
  · split at h
    · cases h
    · split at h
      · cases h
      · split at h
        · cases h
        · split at h
          · cases h
          · rename_i port hport
            split at h
            · cases h
            · rename_i trs htrs
              injection h with h2
              subst h2
              exact ⟨rfl, rfl, rfl, rfl, rfl, rfl, rfl, htrs ▸ rfl, hport ▸ rfl⟩

/-- Claim C4 (amended): a present Authenticator option selects the PAKE
authenticator for "opaque" (case-insensitively) and the pass-through one
for any other value, but an absent key selects nothing: the auth field is
left nil. -/
theorem claim_c4_authenticator (options : OptMap) (fid : Nat) (l : Listener)
    (h : NewTCPListener options fid = .ok l) :
    (lookupOpt options "Authenticator" = none → l.auth = none) ∧
    (∀ v, lookupOpt options "Authenticator" = some v →
      (lowerStr v = "opaque" → l.auth = some AuthKind.pake) ∧
      (lowerStr v ≠ "opaque" → l.auth = some AuthKind.passThrough)) := by
  have hf := (newTCP_ok_fields options fid l h).2.1
  constructor
  · intro hn
    rw [hf]
    unfold authFor
    rw [hn]
  · intro v hv
    constructor <;> intro hcase <;> rw [hf] <;> unfold authFor <;> rw [hv] <;> simp [hcase]

/-- Claim C4's counterexample: with the Authenticator key absent the
factory succeeds but the auth field is nil, not the pass-through "none"
authenticator the claim promises. -/
theorem claim_c4_counterexample :
    lookupOpt noAuthOpts "Authenticator" = none ∧
    (NewTCPListener noAuthOpts 7).map Listener.auth = .ok none ∧
    (none : Option AuthKind) ≠ some AuthKind.passThrough :=
  ⟨rfl, rfl, fun h => nomatch h⟩

/-- Claim C4's witness: the OPAQUE selection at a concrete options map. -/
theorem claim_c4_authenticator_witness : opaqueFixture.auth = some AuthKind.pake :=
  ((claim_c4_authenticator opaqueOpts 4 opaqueFixture rfl).2 "OPAQUE" rfl).1 rfl

/-- Claim C7 (amended): the pre-shared key is empty exactly when the PSK
key is absent; any present value, the empty string included, is hashed
with SHA-256 into the (32-byte) key. -/
theorem claim_c7_psk (options : OptMap) (fid : Nat) (l : Listener)
    (h : NewTCPListener options fid = .ok l) :
    (lookupOpt options "PSK" = none → l.PSK = []) ∧
    (∀ v, lookupOpt options "PSK" = some v → l.PSK = sha256 (strBytes v)) := by
  have hf := (newTCP_ok_fields options fid l h).2.2.1
  have hps : l.PSK = l.psk := rfl
  constructor
  · intro hn
    rw [hps, hf]
    unfold pskFor
    rw [hn]
  · intro v hv
    rw [hps, hf]
    unfold pskFor
    rw [hv]

/-- Claim C7's counterexample: a present empty PSK value is hashed — the
listener's key is the 32-byte SHA-256 digest of the empty string, so
PSK() is not the empty string. -/
theorem claim_c7_counterexample :
    lookupOpt emptyPskOpts "PSK" = some "" ∧
    (NewTCPListener emptyPskOpts 3).map Listener.PSK = .ok (sha256 []) ∧
    sha256 [] ≠ [] :=
  ⟨rfl, rfl, by rw [sha256_empty_vector]; simp⟩

/-- Claim C7's witness: the key derivation at a concrete options map. -/
theorem claim_c7_psk_witness : pskFixture.PSK = sha256 (strBytes "merlin") :=
  (claim_c7_psk pskOpts 6 pskFixture rfl).2 "merlin" rfl

/-- Claim C9: SetOption mutates exactly the name (for "name",
case-insensitively) or the description (for "description"); every other
option name is rejected with the unhandled-option error; and any
successful call leaves the protocol, transformer chain, interface, port,
pre-shared key, stored options, authenticator, and id unchanged. -/
theorem claim_c9_setoption (l : Listener) (option value : String) :
    (lowerStr option = "name" → l.SetOption option value = .ok { l with name := value }) ∧
    (lowerStr option = "description" →
      l.SetOption option value = .ok { l with description := value }) ∧
    (lowerStr option ≠ "name" → lowerStr option ≠ "description" →
      l.SetOption option value =
        .error ("pkg/listeners/tcp.SetOptions(): unhandled option " ++ option)) ∧
    (∀ l', l.SetOption option value = .ok l' →
      l'.Protocol = l.Protocol ∧ l'.transformers = l.transformers ∧ l'.iface = l.iface ∧
      l'.port = l.port ∧ l'.psk = l.psk ∧ l'.options = l.options ∧ l'.auth = l.auth ∧
      l'.id = l.id) := by
  refine ⟨?_, ?_, ?_, ?_⟩
  · intro h1
    simp [Listener.SetOption, h1]
  · intro h2
    simp [Listener.SetOption, h2]
  · intro h1 h2
    simp [Listener.SetOption, h1, h2]
  · intro l' h
    unfold Listener.SetOption at h
    split at h
    · injection h with h2
      subst h2
      exact ⟨rfl, rfl, rfl, rfl, rfl, rfl, rfl, rfl⟩
    · split at h
      · injection h with h2
        subst h2
        exact ⟨rfl, rfl, rfl, rfl, rfl, rfl, rfl, rfl⟩
      · cases h

/-- Claim C9's witness: the name mutation and the structural-option
rejection at concrete inputs. -/
theorem claim_c9_setoption_witness :
    tcpFixture.SetOption "Name" "X" = .ok { tcpFixture with name := "X" } ∧
    tcpFixture.SetOption "Port" "9" =
      .error "pkg/listeners/tcp.SetOptions(): unhandled option Port" :=
  ⟨(claim_c9_setoption tcpFixture "Name" "X").1 (by decide),
   (claim_c9_setoption tcpFixture "Port" "9").2.2.1 (by decide) (by decide)⟩

/-- The transform loop stops at the first unrecognized name with the
unhandled-transform error naming it. -/
theorem parseTransforms_bad (ls : List String) :
    (∃ x ∈ ls, badTransform x) →
    ∃ b, b ∈ ls ∧ badTransform b ∧
      parseTransforms ls =
        .error ("pkg/listeners/tcp.NewTCPListener(): unhandled transform type: " ++ b) := by
  induction ls with
  | nil => rintro ⟨x, hx, _⟩; cases hx
  | cons s rest ih =>
    rintro ⟨x, hx, hbad⟩
    by_cases hs : badTransform s
    · obtain ⟨h1, h2, h3⟩ := hs
      exact ⟨s, List.mem_cons_self s rest, ⟨h1, h2, h3⟩, by
        unfold parseTransforms
        simp [h1, h2, h3]⟩
    · have hxrest : x ∈ rest := by
        rcases List.mem_cons.mp hx with h | h
        · subst h; exact absurd hbad hs
        · exact h
      obtain ⟨b, hb1, hb2, hb3⟩ := ih ⟨x, hxrest, hbad⟩
      refine ⟨b, List.mem_cons_of_mem _ hb1, hb2, ?_⟩
      unfold badTransform at hs
      push_neg at hs
      unfold parseTransforms
      by_cases hg : lowerStr s = "gob-base"
      · simp [hg, hb3, Except.map]
      · by_cases hd : lowerStr s = "gob-delegate"
        · simp [hg, hd, hb3, Except.map]
        · have ha : lowerStr s = "aes" := hs hg hd
          simp [hg, hd, ha, hb3, Except.map]

/-- Claim C6: NewTCPListener rejects an empty or missing Name, a
non-parsing Interface (naming the value), a non-numeric Port (the error
carrying strconv's message with the value), and an unrecognized transform
name (naming it); and when the factory fails, the service's TCP dispatch
returns the wrapped error with the service state untouched, so no
repository entry is created. -/
theorem claim_c6_validation (options : OptMap) (fid : Nat) :
    (getOpt options "Name" = "" →
      NewTCPListener options fid = .error "a listener name must be provided") ∧
    (getOpt options "Name" ≠ "" → getOpt options "Interface" ≠ "" →
      parseIP (getOpt options "Interface") = none →
      NewTCPListener options fid =
        .error (getOpt options "Interface" ++ " is not a valid network interface")) ∧
    (getOpt options "Name" ≠ "" → ∀ ip, parseIP (getOpt options "Interface") = some ip →
      getOpt options "Port" ≠ "" → ∀ e, atoi (getOpt options "Port") = .error e →
      NewTCPListener options fid =
        .error ("there was an error converting the port number to an integer: " ++ e)) ∧
    (getOpt options "Name" ≠ "" → ∀ ip, parseIP (getOpt options "Interface") = some ip →
      getOpt options "Port" ≠ "" → ∀ p, atoi (getOpt options "Port") = .ok p →
      ∀ tv, lookupOpt options "Transforms" = some tv →
      (∃ x ∈ splitStr tv ',', badTransform x) →
      ∃ b, b ∈ splitStr tv ',' ∧ badTransform b ∧
        NewTCPListener options fid =
          .error ("pkg/listeners/tcp.NewTCPListener(): unhandled transform type: " ++ b)) ∧
    (∀ ls pv, lookupOpt options "Protocol" = some pv → lowerStr pv = "tcp" →
      ∀ e, NewTCPListener options fid = .error e →
      svcNewListener ls options fid = (ls, .error (svcWrap e))) := by
  refine ⟨?_, ?_, ?_, ?_, ?_⟩
  · intro h
    simp [NewTCPListener, h]
  · intro hn hi hp
    simp [NewTCPListener, hn, hi, hp]
  · intro hn ip hip hpne e hatoi
    have hiene : getOpt options "Interface" ≠ "" := by
      intro hh
      rw [hh] at hip
      cases hip
    simp [NewTCPListener, hn, hiene, hip, hpne, hatoi]
  · intro hn ip hip hpne p hatoi tv htv hbad
    obtain ⟨b, hb1, hb2, hb3⟩ := parseTransforms_bad _ hbad
    refine ⟨b, hb1, hb2, ?_⟩
    have hiene : getOpt options "Interface" ≠ "" := by
      intro hh
      rw [hh] at hip
      cases hip
    simp [NewTCPListener, hn, hiene, hip, hpne, hatoi, transformsFor, htv, hb3]
  · intro ls pv hpv hlow e herr
    have hg : getOpt options "Protocol" = pv := by simp [getOpt, hpv]
    have hhf : isHTTPFamily "tcp" = false := by decide
    simp [svcNewListener, hpv, hg, hlow, hhf, herr]

/-- Claim C6's witness: each rejection at a concrete options map, and the
service state left untouched by a failing TCP dispatch. -/
theorem claim_c6_validation_witness :
    NewTCPListener [("Interface", "1.2.3.4")] 1 =
      .error "a listener name must be provided" ∧
    NewTCPListener [("Name", "T"), ("Interface", "nope")] 1 =
      .error "nope is not a valid network interface" ∧
    NewTCPListener [("Name", "T"), ("Interface", "1.2.3.4"), ("Port", "7x")] 1 =
      .error "there was an error converting the port number to an integer: strconv.Atoi: parsing \"7x\": invalid syntax" ∧
    (∃ b, b ∈ splitStr "xor" ',' ∧ badTransform b ∧
      NewTCPListener [("Name", "T"), ("Interface", "1.2.3.4"), ("Port", "7777"),
                      ("Transforms", "xor")] 1 =
        .error ("pkg/listeners/tcp.NewTCPListener(): unhandled transform type: " ++ b)) ∧
    svcNewListener NewListenerService [("Protocol", "TCP"), ("Name", "")] 1 =
      (NewListenerService, .error (svcWrap "a listener name must be provided")) := by
  refine ⟨?_, ?_, ?_, ?_, ?_⟩
  · exact (claim_c6_validation [("Interface", "1.2.3.4")] 1).1 rfl
  · exact (claim_c6_validation [("Name", "T"), ("Interface", "nope")] 1).2.1
      (by decide) (by decide) rfl
  · exact (claim_c6_validation [("Name", "T"), ("Interface", "1.2.3.4"), ("Port", "7x")] 1).2.2.1
      (by decide) [1, 2, 3, 4] rfl (by decide) _ rfl
  · exact (claim_c6_validation [("Name", "T"), ("Interface", "1.2.3.4"), ("Port", "7777"),
      ("Transforms", "xor")] 1).2.2.2.1 (by decide) [1, 2, 3, 4] rfl (by decide) 7777 rfl
      "xor" rfl ⟨"xor", by decide, by decide⟩
  · exact (claim_c6_validation [("Protocol", "TCP"), ("Name", "")] 1).2.2.2.2
      NewListenerService "TCP" rfl rfl "a listener name must be provided" rfl

/-- Claim C5 (amended): NewListener fails for a missing or unrecognized
Protocol, and every failing call leaves all four listener repositories —
and hence the Listeners() aggregate — unchanged; the HTTP server
repository, however, is not covered: the HTTP path registers the server
before the listener factory runs (see the counterexample). -/
theorem claim_c5_failure_state (ls : ListenerService) (options : OptMap) (fid : Nat) :
    (lookupOpt options "Protocol" = none →
      svcNewListener ls options fid = (ls, .error protocolMissingMsg)) ∧
    (∀ pv, lookupOpt options "Protocol" = some pv → isHTTPFamily (lowerStr pv) = false →
      lowerStr pv ≠ "smb" → lowerStr pv ≠ "tcp" → lowerStr pv ≠ "udp" →
      svcNewListener ls options fid =
        (ls, .error ("pkg/services/listeners.NewListener(): unhandled server type " ++ pv))) ∧
    (∀ e, (svcNewListener ls options fid).2 = .error e →
      (svcNewListener ls options fid).1.httpRepo = ls.httpRepo ∧
      (svcNewListener ls options fid).1.smbRepo = ls.smbRepo ∧
      (svcNewListener ls options fid).1.tcpRepo = ls.tcpRepo ∧
      (svcNewListener ls options fid).1.udpRepo = ls.udpRepo ∧
      svcListeners (svcNewListener ls options fid).1 = svcListeners ls) := by
  refine ⟨?_, ?_, ?_⟩
  · intro h
    simp [svcNewListener, h]
  · intro pv hpv hh hs ht hu
    have hg : getOpt options "Protocol" = pv := by simp [getOpt, hpv]
    simp [svcNewListener, hpv, hg, hh, hs, ht, hu]
  · intro e
    cases hl : lookupOpt options "Protocol" with
    | none =>
      intro _
      simp [svcNewListener, hl]
    | some pv =>
      simp only [svcNewListener, hl]
      by_cases h1 : isHTTPFamily (lowerStr (getOpt options "Protocol")) = true
      · simp only [h1, if_true]
        cases hsrv : httpServerNew options with
        | error e2 =>
          simp only [hsrv]
          intro _
          simp [svcListeners]
        | ok srv =>
          simp only [hsrv]
          cases hnl : NewHTTPListener srv options fid with
          | error e2 =>
            simp only [hnl]
            intro _
            simp [svcListeners]
          | ok hl2 =>
            simp only [hnl]
            intro he
            exact absurd he (by simp)
      · rw [if_neg h1]
        by_cases h2 : lowerStr (getOpt options "Protocol") = "smb"
        · rw [if_pos h2]
          cases hsl : NewSMBListener options fid with
          | error e2 =>
            simp only [hsl]
            intro _
            simp [svcListeners]
          | ok sl =>
            simp only [hsl]
            intro he
            exact absurd he (by simp)
        · rw [if_neg h2]
          by_cases h3 : lowerStr (getOpt options "Protocol") = "tcp"
          · rw [if_pos h3]
            cases htl : NewTCPListener options fid with
            | error e2 =>
              simp only [htl]
              intro _
              simp [svcListeners]
            | ok tl =>
              simp only [htl]
              intro he
              exact absurd he (by simp)
          · rw [if_neg h3]
            by_cases h4 : lowerStr (getOpt options "Protocol") = "udp"
            · rw [if_pos h4]
              cases hul : NewUDPListener options fid with
              | error e2 =>
                simp only [hul]
                intro _
                simp [svcListeners]
              | ok ul =>
                simp only [hul]
                intro he
                exact absurd he (by simp)
            · rw [if_neg h4]
              intro _
              simp [svcListeners]

/-- Claim C5's counterexample: a failing HTTP NewListener call that
nevertheless leaves the freshly created infrastructure server registered
in the server repository — partial state, though the listener aggregate is
unchanged. -/
theorem claim_c5_counterexample :
    (svcNewListener NewListenerService headlessHttpOpts 1).2 =
      .error (svcWrap "a listener name must be provided") ∧
    (svcNewListener NewListenerService headlessHttpOpts 1).1.httpServerRepo =
      [{ iface := "127.0.0.1", port := 443 }] ∧
    svcListeners (svcNewListener NewListenerService headlessHttpOpts 1).1 =
      svcListeners NewListenerService :=
  ⟨rfl, rfl, rfl⟩

/-- Claim C5's witness: the missing-Protocol rejection at a concrete call
leaves the service exactly as it was. -/
theorem claim_c5_failure_state_witness :
    svcNewListener NewListenerService [("Name", "x")] 1 =
      (NewListenerService, .error protocolMissingMsg) :=
  (claim_c5_failure_state NewListenerService [("Name", "x")] 1).1 rfl
